import Mathlib

/-!
Shallow embedding of the expression-evaluation core found in
src/c/expr/base_expr.cc: the storage-type lattice, the binary and unary
type-rule tables built by init_binops and init_unops, the expression node
hierarchy with its resolve, get_groupby_mode and evaluate_eager methods,
and the factory boundary py::base_expr::m__init__.

Machine integers are modelled as Nat and Int.  Fallible code returns
Except Err.  The lazily written column-index cache of expr_column is
modelled by threading the node through resolve: resolve returns the
storage type together with the (possibly updated) node.
-/

set_option maxRecDepth 100000
set_option maxHeartbeats 4000000

/-- Decidable equality on Except, needed to evaluate the model on
concrete inputs. -/
instance {ε α : Type} [DecidableEq ε] [DecidableEq α] : DecidableEq (Except ε α) := fun x y =>
  match x, y with
  | .ok a, .ok b =>
      if h : a = b then .isTrue (by rw [h])
      else .isFalse (by intro hc; injection hc; contradiction)
  | .error a, .error b =>
      if h : a = b then .isTrue (by rw [h])
      else .isFalse (by intro hc; injection hc; contradiction)
  | .ok _, .error _ => .isFalse (by intro hc; cases hc)
  | .error _, .ok _ => .isFalse (by intro hc; cases hc)

namespace DT

/-- Storage types of columns.  The enum declaration lives in a header
outside the two source files; the spec declares the total order
BOOL < INT8 < INT16 < INT32 < INT64 < FLOAT32 < FLOAT64 < STR32 < STR64 < OBJECT,
which the numeric codes below realise. -/
inductive SType where
  | BOOL | INT8 | INT16 | INT32 | INT64 | FLOAT32 | FLOAT64 | STR32 | STR64 | OBJECT
deriving DecidableEq, Fintype

/-- Underlying numeric value of the SType enum, following the declared order. -/
def SType.code : SType → Nat
  | .BOOL => 1
  | .INT8 => 2
  | .INT16 => 3
  | .INT32 => 4
  | .INT64 => 5
  | .FLOAT32 => 6
  | .FLOAT64 => 7
  | .STR32 => 8
  | .STR64 => 9
  | .OBJECT => 10

/-- Display name of a storage type, as printed into error messages by the
stream operator (defined outside the two source files; names are cosmetic). -/
def SType.show : SType → String
  | .BOOL => "bool8"
  | .INT8 => "int8"
  | .INT16 => "int16"
  | .INT32 => "int32"
  | .INT64 => "int64"
  | .FLOAT32 => "float32"
  | .FLOAT64 => "float64"
  | .STR32 => "str32"
  | .STR64 => "str64"
  | .OBJECT => "obj64"

/-- std::max on two SType enum values: compares the underlying codes and
returns the second argument when the first is strictly smaller. -/
def stmax (a b : SType) : SType := if a.code < b.code then b else a

/-- Binary operator codes (enum biop).  The numeric codes follow the order
of the binop_names initialisation in the source, starting at 1 so that
binop_names is resized to 18 entries. -/
inductive biop where
  | PLUS | MINUS | MULTIPLY | DIVIDE | INT_DIVIDE | POWER | MODULO
  | LOGICAL_AND | LOGICAL_OR | LEFT_SHIFT | RIGHT_SHIFT
  | REL_EQ | REL_NE | REL_GT | REL_LT | REL_GE | REL_LE
deriving DecidableEq, Fintype

/-- Underlying numeric value of the biop enum. -/
def biop.code : biop → Nat
  | .PLUS => 1
  | .MINUS => 2
  | .MULTIPLY => 3
  | .DIVIDE => 4
  | .INT_DIVIDE => 5
  | .POWER => 6
  | .MODULO => 7
  | .LOGICAL_AND => 8
  | .LOGICAL_OR => 9
  | .LEFT_SHIFT => 10
  | .RIGHT_SHIFT => 11
  | .REL_EQ => 12
  | .REL_NE => 13
  | .REL_GT => 14
  | .REL_LT => 15
  | .REL_GE => 16
  | .REL_LE => 17

/-- Display names of the binary operators, indexed by biop code
(binop_names in the source; index 0 is unused). -/
def binop_names : List String :=
  ["", "+", "-", "*", "/", "//", "**", "%", "&", "|", "<<", ">>",
   "==", "!=", ">", "<", ">=", "<="]

/-- Unary operator codes (enum unop), in the order of the unop_names
initialisation, starting at 1. -/
inductive unop where
  | ISNA | MINUS | PLUS | INVERT | ABS | EXP | LOGE | LOG10 | LEN
deriving DecidableEq, Fintype

/-- Underlying numeric value of the unop enum. -/
def unop.code : unop → Nat
  | .ISNA => 1
  | .MINUS => 2
  | .PLUS => 3
  | .INVERT => 4
  | .ABS => 5
  | .EXP => 6
  | .LOGE => 7
  | .LOG10 => 8
  | .LEN => 9

/-- Display names of the unary operators, indexed by unop code
(unop_names in the source; index 0 is unused). -/
def unop_names : List String :=
  ["", "isna", "-", "+", "~", "abs", "exp", "log", "log10", "len"]

/-- Key packing for the binary rule table:
id(opcode, st1, st2) = (opcode << 16) + (st1 << 8) + st2. -/
def binid (opcode : Nat) (st1 st2 : SType) : Nat :=
  opcode * 65536 + st1.code * 256 + st2.code

/-- Key packing for the unary rule table: id(opcode, st) = (opcode << 8) + st. -/
def unid (opcode : Nat) (st : SType) : Nat :=
  opcode * 256 + st.code

/-- integer_stypes of init_binops / init_unops. -/
def integer_stypes : List SType := [.INT8, .INT16, .INT32, .INT64]

/-- numeric_stypes of init_binops / init_unops. -/
def numeric_stypes : List SType :=
  [.BOOL, .INT8, .INT16, .INT32, .INT64, .FLOAT32, .FLOAT64]

/-- string_types of init_binops / init_unops. -/
def string_types : List SType := [.STR32, .STR64]

/-- all_stypes of init_unops. -/
def all_stypes : List SType :=
  [.BOOL, .INT8, .INT16, .INT32, .INT64, .FLOAT32, .FLOAT64, .STR32, .STR64]

/-- Entries written into binop_rules by init_binops, in program order.
The unordered_map assignment semantics (a later write to the same key
overwrites an earlier one) is realised by the last-write-wins lookup below. -/
def binop_entries : List (Nat × SType) :=
  (numeric_stypes.flatMap fun st1 =>
    numeric_stypes.flatMap fun st2 =>
      [ (binid biop.PLUS.code st1 st2, stmax st1 st2),
        (binid biop.MINUS.code st1 st2, stmax st1 st2),
        (binid biop.MULTIPLY.code st1 st2, stmax st1 st2),
        (binid biop.POWER.code st1 st2, stmax st1 st2),
        (binid biop.DIVIDE.code st1 st2, SType.FLOAT64),
        (binid biop.REL_EQ.code st1 st2, SType.BOOL),
        (binid biop.REL_NE.code st1 st2, SType.BOOL),
        (binid biop.REL_LT.code st1 st2, SType.BOOL),
        (binid biop.REL_GT.code st1 st2, SType.BOOL),
        (binid biop.REL_LE.code st1 st2, SType.BOOL),
        (binid biop.REL_GE.code st1 st2, SType.BOOL) ])
  ++ (integer_stypes.flatMap fun st1 =>
       integer_stypes.flatMap fun st2 =>
        [ (binid biop.INT_DIVIDE.code st1 st2, stmax st1 st2),
          (binid biop.MODULO.code st1 st2, stmax st1 st2),
          (binid biop.LEFT_SHIFT.code st1 st2, stmax st1 st2),
          (binid biop.RIGHT_SHIFT.code st1 st2, stmax st1 st2) ])
  ++ (string_types.flatMap fun st1 =>
       string_types.flatMap fun st2 =>
        [ (binid biop.REL_EQ.code st1 st2, SType.BOOL),
          (binid biop.REL_NE.code st1 st2, SType.BOOL) ])
  ++ [ (binid biop.LOGICAL_AND.code SType.BOOL SType.BOOL, SType.BOOL),
       (binid biop.LOGICAL_OR.code SType.BOOL SType.BOOL, SType.BOOL) ]

/-- Lookup in the binary rule table.  init_binops assigns every key at
most once (the operator sets of its four loops are disjoint and each loop
visits a type pair once), so the unordered_map it builds is modelled by a
first-match lookup over the insertion list. -/
def binop_rules_lookup (k : Nat) : Option SType :=
  binop_entries.lookup k

/-- Entries written into unop_rules by init_unops, in program order.  The
four overriding writes for BOOL (MINUS, PLUS, ABS to INT8 and INVERT to
BOOL) come after the bulk numeric loop, so last-write-wins makes them
effective. -/
def unop_entries : List (Nat × SType) :=
  (all_stypes.map fun st => (unid unop.ISNA.code st, SType.BOOL))
  ++ (integer_stypes.map fun st => (unid unop.INVERT.code st, st))
  ++ (numeric_stypes.flatMap fun st =>
       [ (unid unop.MINUS.code st, st),
         (unid unop.PLUS.code st, st),
         (unid unop.ABS.code st, st),
         (unid unop.EXP.code st, SType.FLOAT64),
         (unid unop.LOGE.code st, SType.FLOAT64),
         (unid unop.LOG10.code st, SType.FLOAT64) ])
  ++ [ (unid unop.MINUS.code SType.BOOL, SType.INT8),
       (unid unop.PLUS.code SType.BOOL, SType.INT8),
       (unid unop.ABS.code SType.BOOL, SType.INT8),
       (unid unop.INVERT.code SType.BOOL, SType.BOOL),
       (unid unop.LEN.code SType.STR32, SType.INT32),
       (unid unop.LEN.code SType.STR64, SType.INT64) ]

/-- Lookup in the unary rule table, last-write-wins. -/
def unop_rules_lookup (k : Nat) : Option SType :=
  unop_entries.reverse.lookup k

example : binop_rules_lookup (binid biop.PLUS.code SType.INT8 SType.INT64)
    = some SType.INT64 := by decide

example : binop_rules_lookup (binid biop.INT_DIVIDE.code SType.FLOAT64 SType.FLOAT64)
    = none := by decide

example : unop_rules_lookup (unid unop.MINUS.code SType.BOOL)
    = some SType.INT8 := by decide

/-- Error kinds raised by the core (TypeError and ValueError of the C++
exception hierarchy), carrying the formatted message. -/
inductive Err where
  | TypeError (msg : String)
  | ValueError (msg : String)
deriving DecidableEq

/-- Model of a materialized column: its storage type, its cell values
(integers suffice for the reduction kernel modelled concretely here), and
its own row-selection view (RowIndex; none models an empty RowIndex). -/
structure ModelColumn where
  stype : SType
  values : List Int
  ri : Option (List Nat)
deriving DecidableEq

/-- Placeholder column returned by the total model for an out-of-bounds
columns access; the validated code paths never reach it. -/
def defaultColumn : ModelColumn := ⟨SType.OBJECT, [], none⟩

/-- Model of a DataTable: its columns and their names. -/
structure Frame where
  columns : List ModelColumn
  names : List String
deriving DecidableEq

/-- Number of columns of a frame (dt->ncols). -/
def Frame.ncols (f : Frame) : Nat := f.columns.length

/-- Modelled from the spec: DataTable::xcolindex, the name-to-index
resolution on a Frame, lives outside the two source files; the spec says
an invalid column name surfaces as a ValueError from this external
collaborator. -/
def Frame.xcolindex (f : Frame) (name : String) : Except Err Nat :=
  match f.names.indexOf? name with
  | some i => .ok i
  | none => .error (.ValueError ("Column `" ++ name ++ "` does not exist in the Frame"))

/-- Model of the external Groupby structure: the monotonic boundary
offsets array, of length ngroups + 1. -/
structure Groupby where
  offsets : List Int
deriving DecidableEq

/-- Number of groups (Groupby::ngroups). -/
def Groupby.ngroups (g : Groupby) : Nat := g.offsets.length - 1

/-- Model of the workframe evaluation context: the source frames, the
optional grouping with its key columns (by_node), per-frame row
selections, and the total row count. -/
structure workframe where
  frames : List Frame
  groupby : Option Groupby
  group_cols : List Nat
  rowindexes : List (Option (List Nat))
  nrows : Nat

/-- workframe::nframes. -/
def workframe.nframes (wf : workframe) : Nat := wf.frames.length

/-- workframe::get_datatable. -/
def workframe.get_datatable (wf : workframe) (fid : Nat) : Frame :=
  wf.frames.getD fid ⟨[], []⟩

/-- workframe::has_groupby. -/
def workframe.has_groupby (wf : workframe) : Bool := wf.groupby.isSome

/-- workframe::get_groupby. -/
def workframe.get_groupby (wf : workframe) : Groupby := wf.groupby.getD ⟨[]⟩

/-- by_node::has_group_column, reached through wf.get_by_node(). -/
def workframe.has_group_column (wf : workframe) (i : Nat) : Bool :=
  wf.group_cols.contains i

/-- workframe::get_rowindex. -/
def workframe.get_rowindex (wf : workframe) (fid : Nat) : Option (List Nat) :=
  wf.rowindexes.getD fid none

/-- Column selector stored inside expr_column (a py::robj in the source,
interrogated only through is_int, to_int64_strict and is_string). -/
inductive Selector where
  | int (i : Int)
  | str (s : String)
  | other
deriving DecidableEq

/-- Grouping modes: GtoONE is one value per group (PerGroup), GtoALL is
one value per row (PerRow).  The enum itself is declared in a header
outside the two source files; the spec fixes the order PerGroup < PerRow,
which the codes below realise. -/
inductive GroupbyMode where
  | GtoONE | GtoALL
deriving DecidableEq, Fintype

/-- Underlying uint8 value of the GroupbyMode enum. -/
def GroupbyMode.code : GroupbyMode → Nat
  | .GtoONE => 1
  | .GtoALL => 2

/-- static_cast of std::max applied to two GroupbyMode values. -/
def gmax (a b : GroupbyMode) : GroupbyMode := if a.code < b.code then b else a

/-- The expression node hierarchy of base_expr.  The column node carries
the lazily written column-index cache col_id; binaryop and unaryop carry
the operator code as the raw size_t stored by their constructors.  The
n-ary reduction and string-function nodes are declared outside the two
source files (signature only per the spec) and are not part of the
modelled tree. -/
inductive base_expr where
  | column (frame_id : Nat) (col_selector : Selector) (col_id : Nat)
  | literal (col : ModelColumn)
  | binaryop (binop_code : Nat) (lhs rhs : base_expr)
  | unaryop (unop_code : Nat) (arg : base_expr)
  | cast (arg : base_expr) (stype : SType)
  | reduce_nullary (opcode : Nat)
deriving DecidableEq

/-- size_t(-1), the sentinel marking the column-index cache as unresolved. -/
def SENTINEL : Nat := 2 ^ 64 - 1

/-- Message of the out-of-range column index ValueError of
expr_column::get_col_index. -/
def invalid_index_msg (icolid incols : Int) : String :=
  "Column index " ++ toString icolid ++ " is invalid for a Frame with "
    ++ toString incols ++ " column" ++ (if incols = 1 then "" else "s")

/-- expr_column::get_col_index: on a cache miss validates the frame id and
resolves the selector (Python-style negative indexing for integers, the
external name lookup for strings); on a cache hit returns the cached
index unchanged.  A selector that is neither an integer nor a string
leaves the cache unwritten (the debug assertion in the source would fire)
and the sentinel is returned. -/
def get_col_index (frame_id col_id : Nat) (col_selector : Selector)
    (wf : workframe) : Except Err Nat :=
  if col_id = SENTINEL then
    if frame_id ≥ wf.nframes then
      .error (.ValueError "Column expression references a non-existing join frame")
    else
      let dt := wf.get_datatable frame_id
      match col_selector with
      | .int icolid =>
          let incols : Int := (dt.ncols : Int)
          if icolid < -incols ∨ icolid ≥ incols then
            .error (.ValueError (invalid_index_msg icolid incols))
          else
            .ok (if icolid < 0 then (icolid + incols).toNat else icolid.toNat)
      | .str name => dt.xcolindex name
      | .other => .ok SENTINEL
  else .ok col_id

/-- Message of the TypeError raised by expr_binaryop::resolve. -/
def binop_err_msg (code : Nat) (s1 s2 : SType) : String :=
  "Binary operator `" ++ binop_names.getD code ""
    ++ "` cannot be applied to columns with stypes `" ++ s1.show
    ++ "` and `" ++ s2.show ++ "`"

/-- Message of the TypeError raised by expr_unaryop::resolve. -/
def unop_err_msg (code : Nat) (s : SType) : String :=
  "Unary operator `" ++ unop_names.getD code ""
    ++ "` cannot be applied to a column with stype `" ++ s.show ++ "`"

/-- The resolve method of each node kind.  The column-index cache write is
modelled by returning the updated node next to the resolved storage type:
column writes the index produced by get_col_index, every other node kind
rebuilds itself around its resolved children. -/
def resolve : base_expr → workframe → Except Err (SType × base_expr)
  | .column frame_id col_selector col_id, wf =>
      match get_col_index frame_id col_id col_selector wf with
      | .error e => .error e
      | .ok i =>
          let dt := wf.get_datatable frame_id
          .ok ((dt.columns.getD i defaultColumn).stype, .column frame_id col_selector i)
  | .literal col, _ => .ok (col.stype, .literal col)
  | .binaryop code lhs rhs, wf =>
      match resolve lhs wf with
      | .error e => .error e
      | .ok (lhs_stype, lhs2) =>
        match resolve rhs wf with
        | .error e => .error e
        | .ok (rhs_stype, rhs2) =>
          match binop_rules_lookup (binid code lhs_stype rhs_stype) with
          | none => .error (.TypeError (binop_err_msg code lhs_stype rhs_stype))
          | some st => .ok (st, .binaryop code lhs2 rhs2)
  | .unaryop code arg, wf =>
      match resolve arg wf with
      | .error e => .error e
      | .ok (arg_stype, arg2) =>
        match unop_rules_lookup (unid code arg_stype) with
        | none => .error (.TypeError (unop_err_msg code arg_stype))
        | some st => .ok (st, .unaryop code arg2)
  | .cast arg stype, wf =>
      match resolve arg wf with
      | .error e => .error e
      | .ok (_, arg2) => .ok (stype, .cast arg2 stype)
  | .reduce_nullary opcode, _ => .ok (SType.INT64, .reduce_nullary opcode)

/-- The get_groupby_mode method of each node kind.  The column case reads
the raw col_id cache field, exactly as the source does. -/
def get_groupby_mode : base_expr → workframe → GroupbyMode
  | .column frame_id _ col_id, wf =>
      if frame_id = 0 ∧ wf.has_groupby = true ∧ wf.has_group_column col_id = true
      then .GtoONE else .GtoALL
  | .literal _, _ => .GtoONE
  | .binaryop _ lhs rhs, wf =>
      gmax (get_groupby_mode lhs wf) (get_groupby_mode rhs wf)
  | .unaryop _ arg, wf => get_groupby_mode arg wf
  | .cast arg _, wf => get_groupby_mode arg wf
  | .reduce_nullary _, _ => .GtoONE

/-- External column and kernel capabilities consumed by evaluate_eager:
the elementwise operator kernels (expr::binaryop, expr::unaryop), the
cast kernel (Column::cast), shallow copies with and without a composed
row selection (Column::shallowcopy), and the row-index composition
(workframe::product).  They live outside the two source files, so they
are abstract parameters here. -/
structure Kernels where
  binaryop_kernel : Nat → ModelColumn → ModelColumn → ModelColumn
  unaryop_kernel : Nat → ModelColumn → ModelColumn → ModelColumn
  cast_kernel : ModelColumn → SType → ModelColumn
  shallowcopy : ModelColumn → ModelColumn
  shallowcopy_ri : ModelColumn → List Nat → ModelColumn
  product : List Nat → Option (List Nat) → List Nat

/-- A concrete Kernels instance, used only to instantiate theorems at
closed inputs. -/
def trivialKernels : Kernels :=
  ⟨fun _ a _ => a, fun _ a _ => a, fun a _ => a, id, fun a _ => a, fun a _ => a⟩

/-- The evaluate_eager method of each node kind.  The COUNT reduction is
modelled concretely from the source: with an active grouping it fills an
INT32 column of length ngroups with the differences of consecutive
boundary offsets, without one it produces a single INT64 holding the
total row count; a non-COUNT opcode leaves the result a null pointer,
modelled as none. -/
def evaluate_eager (K : Kernels) : base_expr → workframe → Option ModelColumn
  | .column frame_id _ col_id, wf =>
      let dt := wf.get_datatable frame_id
      let rcol := dt.columns.getD col_id defaultColumn
      match wf.get_rowindex frame_id with
      | some dt_ri => some (K.shallowcopy_ri rcol (K.product dt_ri rcol.ri))
      | none => some (K.shallowcopy rcol)
  | .literal col, _ => some (K.shallowcopy col)
  | .binaryop code lhs rhs, wf =>
      match evaluate_eager K lhs wf, evaluate_eager K rhs wf with
      | some a, some b => some (K.binaryop_kernel code a b)
      | _, _ => none
  | .unaryop code arg, wf =>
      (evaluate_eager K arg wf).map fun a => K.unaryop_kernel code a a
  | .cast arg stype, wf =>
      (evaluate_eager K arg wf).map fun a => K.cast_kernel a stype
  | .reduce_nullary opcode, wf =>
      if opcode = 0 then
        if wf.has_groupby then
          let grpby := wf.get_groupby
          let ng := grpby.ngroups
          some ⟨SType.INT32,
            (List.range ng).map (fun i => grpby.offsets.getD (i + 1) 0 - grpby.offsets.getD i 0),
            none⟩
        else
          some ⟨SType.INT64, [(wf.nrows : Int)], none⟩
      else none

/-- Values crossing the Python factory boundary, as far as the core
interrogates them: integers, strings, wrapped expression objects, and
anything else. -/
inductive PyValue where
  | int (i : Int)
  | str (s : String)
  | exprv (e : base_expr)
  | other
deriving DecidableEq

/-- Name of the Python type of a value, used in the to_base_expr error
message (arg.typeobj() in the source; cosmetic). -/
def pytypename : PyValue → String
  | .int _ => "int"
  | .str _ => "str"
  | .exprv _ => "base_expr"
  | .other => "object"

/-- Modelled from the spec: py::robj conversion to size_t, an external
binding-layer capability; a non-integer or negative value fails. -/
def to_size_t (v : PyValue) : Except Err Nat :=
  match v with
  | .int i => if 0 ≤ i then .ok i.toNat else .error (.ValueError "negative value cannot be converted to size_t")
  | _ => .error (.TypeError "expected an integer")

/-- Conversion of the factory argument into the stored column selector
(the source stores the py::robj itself and interrogates it later). -/
def toSelector : PyValue → Selector
  | .int i => .int i
  | .str s => .str s
  | _ => .other

/-- Modelled from the spec: Column::from_pylist wraps a single value as a
length-1 column; the storage-type inference is the storage engine
outside the two source files. -/
def from_pylist (v : PyValue) : ModelColumn :=
  match v with
  | .int i => ⟨SType.INT32, [i], none⟩
  | .str _ => ⟨SType.STR32, [], none⟩
  | _ => ⟨SType.OBJECT, [], none⟩

/-- static_cast of a size_t to SType, as done by the CAST factory arm. -/
def stype_from_code (n : Nat) : SType :=
  match n with
  | 1 => .BOOL
  | 2 => .INT8
  | 3 => .INT16
  | 4 => .INT32
  | 5 => .INT64
  | 6 => .FLOAT32
  | 7 => .FLOAT64
  | 8 => .STR32
  | 9 => .STR64
  | _ => .OBJECT

/-- The exprCode opcode tags dispatched by py::base_expr::m__init__. -/
inductive exprCode where
  | COL | BINOP | LITERAL | UNOP | CAST | UNREDUCE | NUREDUCE | STRINGFN
deriving DecidableEq, Fintype

/-- check_args_count: the strict arity check of the factory. -/
def check_args_count (va : List PyValue) (n : Nat) : Except Err Unit :=
  if va.length = n then .ok ()
  else .error (.TypeError ("Expected " ++ toString n
    ++ " additional arguments, but received " ++ toString va.length))

/-- to_base_expr: the factory validation that a subexpression argument is
a well-formed expression object. -/
def to_base_expr (v : PyValue) : Except Err base_expr :=
  match v with
  | .exprv e => .ok e
  | _ => .error (.TypeError ("Expected a base_expr object, but got " ++ pytypename v))

/-- py::base_expr::m__init__: dispatches on the opcode, checks the arity
of the variadic arguments, converts them, and constructs the node.  The
UNREDUCE and STRINGFN arms construct node kinds declared outside the two
source files (signature only per the spec); their checks and conversions
are modelled and the constructed out-of-scope node is returned as none.
The debug assertion on the NUREDUCE opcode is a no-op in release builds
and is not modelled. -/
def m__init__ (opcode : exprCode) (va : List PyValue) : Except Err (Option base_expr) :=
  match opcode with
  | .COL => do
      let _ ← check_args_count va 2
      let fid ← to_size_t (va.getD 0 .other)
      .ok (some (.column fid (toSelector (va.getD 1 .other)) SENTINEL))
  | .BINOP => do
      let _ ← check_args_count va 3
      let code ← to_size_t (va.getD 0 .other)
      let lhs ← to_base_expr (va.getD 1 .other)
      let rhs ← to_base_expr (va.getD 2 .other)
      .ok (some (.binaryop code lhs rhs))
  | .LITERAL => do
      let _ ← check_args_count va 1
      .ok (some (.literal (from_pylist (va.getD 0 .other))))
  | .UNOP => do
      let _ ← check_args_count va 2
      let code ← to_size_t (va.getD 0 .other)
      let arg ← to_base_expr (va.getD 1 .other)
      .ok (some (.unaryop code arg))
  | .CAST => do
      let _ ← check_args_count va 2
      let arg ← to_base_expr (va.getD 0 .other)
      let stcode ← to_size_t (va.getD 1 .other)
      .ok (some (.cast arg (stype_from_code stcode)))
  | .UNREDUCE => do
      let _ ← check_args_count va 2
      let _ ← to_size_t (va.getD 0 .other)
      let _ ← to_base_expr (va.getD 1 .other)
      .ok none
  | .NUREDUCE => do
      let _ ← check_args_count va 1
      let op ← to_size_t (va.getD 0 .other)
      .ok (some (.reduce_nullary op))
  | .STRINGFN => do
      let _ ← check_args_count va 3
      let _ ← to_size_t (va.getD 0 .other)
      let _ ← to_base_expr (va.getD 1 .other)
      .ok none

/-- Arity fixed by m__init__ for each node kind. -/
def expected_arity : exprCode → Nat
  | .COL => 2
  | .BINOP => 3
  | .LITERAL => 1
  | .UNOP => 2
  | .CAST => 2
  | .UNREDUCE => 2
  | .NUREDUCE => 1
  | .STRINGFN => 3

/-- A workframe with no frames, no grouping and no rows. -/
def wf_empty : workframe := ⟨[], none, [], [], 0⟩

/-- A workframe holding one frame of five columns, without grouping. -/
def wf5 : workframe :=
  ⟨[⟨[⟨SType.BOOL, [], none⟩, ⟨SType.INT8, [], none⟩, ⟨SType.INT16, [], none⟩,
      ⟨SType.INT32, [], none⟩, ⟨SType.INT64, [], none⟩],
     ["a", "b", "c", "d", "e"]⟩], none, [], [], 3⟩

/-- A workframe with an active grouping of boundary offsets 0, 3, 7, 10. -/
def wf_grouped : workframe := ⟨[], some ⟨[0, 3, 7, 10]⟩, [], [], 10⟩

/-- A workframe with 7 rows and no grouping. -/
def wf_rows7 : workframe := ⟨[], none, [], [], 7⟩

/-- A workframe whose frame 0 has two columns, with an active grouping
keyed on column 1. -/
def wf_gc : workframe :=
  ⟨[⟨[⟨SType.INT32, [], none⟩, ⟨SType.INT64, [], none⟩], ["x", "y"]⟩],
   some ⟨[0, 2]⟩, [1], [], 2⟩

/-- Shorthand for a literal node over an empty column of a given stype. -/
def litS (s : SType) : base_expr := .literal ⟨s, [], none⟩

/-- Intended content of the binary rule table, written directly over the
operator and storage-type enumerations; the characterization theorem
below proves it equal to the table built by init_binops. -/
def binop_expected (op : biop) (s1 s2 : SType) : Option SType :=
  if op ∈ [biop.PLUS, biop.MINUS, biop.MULTIPLY, biop.POWER] then
    if s1 ∈ numeric_stypes ∧ s2 ∈ numeric_stypes then some (stmax s1 s2) else none
  else if op = biop.DIVIDE then
    if s1 ∈ numeric_stypes ∧ s2 ∈ numeric_stypes then some SType.FLOAT64 else none
  else if op ∈ [biop.REL_EQ, biop.REL_NE, biop.REL_LT, biop.REL_GT, biop.REL_LE, biop.REL_GE] then
    if s1 ∈ numeric_stypes ∧ s2 ∈ numeric_stypes then some SType.BOOL
    else if (op = biop.REL_EQ ∨ op = biop.REL_NE)
            ∧ s1 ∈ string_types ∧ s2 ∈ string_types then some SType.BOOL
    else none
  else if op ∈ [biop.INT_DIVIDE, biop.MODULO, biop.LEFT_SHIFT, biop.RIGHT_SHIFT] then
    if s1 ∈ integer_stypes ∧ s2 ∈ integer_stypes then some (stmax s1 s2) else none
  else
    if s1 = SType.BOOL ∧ s2 = SType.BOOL then some SType.BOOL else none

/-- Key-decoding counterpart of binop_expected, used so that checking one
table entry costs a constant amount of arithmetic instead of a scan. -/
def binop_fn (k : Nat) : Option SType :=
  let op := k / 65536
  let c1 := k / 256 % 256
  let c2 := k % 256
  if (op = 1 ∨ op = 2 ∨ op = 3 ∨ op = 6) ∧ (1 ≤ c1 ∧ c1 ≤ 7) ∧ (1 ≤ c2 ∧ c2 ≤ 7) then
    some (stype_from_code (max c1 c2))
  else if op = 4 ∧ (1 ≤ c1 ∧ c1 ≤ 7) ∧ (1 ≤ c2 ∧ c2 ≤ 7) then
    some SType.FLOAT64
  else if (12 ≤ op ∧ op ≤ 17) ∧ (1 ≤ c1 ∧ c1 ≤ 7) ∧ (1 ≤ c2 ∧ c2 ≤ 7) then
    some SType.BOOL
  else if (op = 5 ∨ op = 7 ∨ op = 10 ∨ op = 11) ∧ (2 ≤ c1 ∧ c1 ≤ 5) ∧ (2 ≤ c2 ∧ c2 ≤ 5) then
    some (stype_from_code (max c1 c2))
  else if (op = 12 ∨ op = 13) ∧ (c1 = 8 ∨ c1 = 9) ∧ (c2 = 8 ∨ c2 = 9) then
    some SType.BOOL
  else if (op = 8 ∨ op = 9) ∧ c1 = 1 ∧ c2 = 1 then
    some SType.BOOL
  else none

/-- Every entry written by init_binops agrees with the decoded
characterization of its key. -/
theorem binop_entries_fn : ∀ e ∈ binop_entries, binop_fn e.1 = some e.2 := by decide

/-- On packed keys the decoded characterization coincides with the
intended table. -/
theorem binop_fn_binid :
    ∀ (op : biop) (s1 s2 : SType), binop_fn (binid op.code s1 s2) = binop_expected op s1 s2 := by
  decide

/-- A first-match lookup over an association list all of whose entries
agree with a function returns that function at every present key. -/
theorem lookup_eq_fn_of_mem (f : Nat → Option SType) :
    ∀ (l : List (Nat × SType)), (∀ e ∈ l, f e.1 = some e.2) →
      ∀ k : Nat, k ∈ l.map Prod.fst → l.lookup k = f k := by
  intro l
  induction l with
  | nil => intro _ k hk; simp at hk
  | cons e es ih =>
      intro hall k hk
      obtain ⟨k2, v⟩ := e
      rcases eq_or_ne k k2 with rfl | hne
      · have hf := hall (k, v) (by simp)
        simp only at hf
        simp [List.lookup_cons, hf]
      · have hk2 : k ∈ es.map Prod.fst := by
          simp only [List.map_cons, List.mem_cons] at hk
          exact hk.resolve_left hne
        have hrest := ih (fun e he => hall e (List.mem_cons_of_mem _ he)) k hk2
        have hbeq : (k == k2) = false := beq_false_of_ne hne
        simp only [List.lookup_cons, hbeq]
        exact hrest

/-- A first-match lookup at an absent key returns none. -/
theorem lookup_eq_none_of_not_mem :
    ∀ (l : List (Nat × SType)) (k : Nat), k ∉ l.map Prod.fst → l.lookup k = none := by
  intro l
  induction l with
  | nil => intro k _; rfl
  | cons e es ih =>
      intro k hk
      obtain ⟨k2, v⟩ := e
      simp only [List.map_cons, List.mem_cons, not_or] at hk
      obtain ⟨hne, hk2⟩ := hk
      have hbeq : (k == k2) = false := beq_false_of_ne hne
      simp only [List.lookup_cons, hbeq]
      exact ih k hk2

/-- Every key that the intended table defines was inserted by init_binops
together with its intended value. -/
theorem mem_entries_of_expected (op : biop) (s1 s2 : SType) (v : SType)
    (h : binop_expected op s1 s2 = some v) :
    (binid op.code s1 s2, v) ∈ binop_entries := by
  have memN : ∀ x : Nat × SType, s1 ∈ numeric_stypes → s2 ∈ numeric_stypes →
      x ∈ [ (binid biop.PLUS.code s1 s2, stmax s1 s2),
            (binid biop.MINUS.code s1 s2, stmax s1 s2),
            (binid biop.MULTIPLY.code s1 s2, stmax s1 s2),
            (binid biop.POWER.code s1 s2, stmax s1 s2),
            (binid biop.DIVIDE.code s1 s2, SType.FLOAT64),
            (binid biop.REL_EQ.code s1 s2, SType.BOOL),
            (binid biop.REL_NE.code s1 s2, SType.BOOL),
            (binid biop.REL_LT.code s1 s2, SType.BOOL),
            (binid biop.REL_GT.code s1 s2, SType.BOOL),
            (binid biop.REL_LE.code s1 s2, SType.BOOL),
            (binid biop.REL_GE.code s1 s2, SType.BOOL) ] →
      x ∈ binop_entries := by
    intro x hs1 hs2 hx
    unfold binop_entries
    simp only [List.mem_append]
    exact Or.inl (Or.inl (Or.inl
      (List.mem_flatMap.2 ⟨s1, hs1, List.mem_flatMap.2 ⟨s2, hs2, hx⟩⟩)))
  have memI : ∀ x : Nat × SType, s1 ∈ integer_stypes → s2 ∈ integer_stypes →
      x ∈ [ (binid biop.INT_DIVIDE.code s1 s2, stmax s1 s2),
            (binid biop.MODULO.code s1 s2, stmax s1 s2),
            (binid biop.LEFT_SHIFT.code s1 s2, stmax s1 s2),
            (binid biop.RIGHT_SHIFT.code s1 s2, stmax s1 s2) ] →
      x ∈ binop_entries := by
    intro x hs1 hs2 hx
    unfold binop_entries
    simp only [List.mem_append]
    exact Or.inl (Or.inl (Or.inr
      (List.mem_flatMap.2 ⟨s1, hs1, List.mem_flatMap.2 ⟨s2, hs2, hx⟩⟩)))
  have memS : ∀ x : Nat × SType, s1 ∈ string_types → s2 ∈ string_types →
      x ∈ [ (binid biop.REL_EQ.code s1 s2, SType.BOOL),
            (binid biop.REL_NE.code s1 s2, SType.BOOL) ] →
      x ∈ binop_entries := by
    intro x hs1 hs2 hx
    unfold binop_entries
    simp only [List.mem_append]
    exact Or.inl (Or.inr
      (List.mem_flatMap.2 ⟨s1, hs1, List.mem_flatMap.2 ⟨s2, hs2, hx⟩⟩))
  unfold binop_expected at h
  split at h
  case isTrue hop =>
    split at h
    case isTrue hc =>
      injection h with hv
      subst hv
      simp only [List.mem_cons, List.not_mem_nil, or_false] at hop
      rcases hop with rfl | rfl | rfl | rfl <;>
        exact memN _ hc.1 hc.2 (by simp)
    case isFalse => cases h
  case isFalse hop1 =>
  split at h
  case isTrue hop =>
    split at h
    case isTrue hc =>
      injection h with hv
      subst hv
      subst hop
      exact memN _ hc.1 hc.2 (by simp)
    case isFalse => cases h
  case isFalse hop2 =>
  split at h
  case isTrue hop =>
    split at h
    case isTrue hc =>
      injection h with hv
      subst hv
      simp only [List.mem_cons, List.not_mem_nil, or_false] at hop
      rcases hop with rfl | rfl | rfl | rfl | rfl | rfl <;>
        exact memN _ hc.1 hc.2 (by simp)
    case isFalse =>
      split at h
      case isTrue hc =>
        injection h with hv
        subst hv
        rcases hc.1 with rfl | rfl <;>
          exact memS _ hc.2.1 hc.2.2 (by simp)
      case isFalse => cases h
  case isFalse hop3 =>
  split at h
  case isTrue hop =>
    split at h
    case isTrue hc =>
      injection h with hv
      subst hv
      simp only [List.mem_cons, List.not_mem_nil, or_false] at hop
      rcases hop with rfl | rfl | rfl | rfl <;>
        exact memI _ hc.1 hc.2 (by simp)
    case isFalse => cases h
  case isFalse hop4 =>
  split at h
  case isTrue hc =>
    injection h with hv
    subst hv
    obtain ⟨rfl, rfl⟩ := hc
    have hlog : op = biop.LOGICAL_AND ∨ op = biop.LOGICAL_OR := by
      cases op <;> simp_all
    unfold binop_entries
    simp only [List.mem_append]
    rcases hlog with rfl | rfl
    · exact Or.inr (by simp)
    · exact Or.inr (by simp)
  case isFalse => cases h

/-- Characterization of the binary rule table: looking up the packed key
of any operator and operand pair returns exactly the intended table
value. -/
theorem binop_char (op : biop) (s1 s2 : SType) :
    binop_rules_lookup (binid op.code s1 s2) = binop_expected op s1 s2 := by
  cases hexp : binop_expected op s1 s2 with
  | some v =>
      have hmem := mem_entries_of_expected op s1 s2 v hexp
      have hk : binid op.code s1 s2 ∈ binop_entries.map Prod.fst :=
        List.mem_map.2 ⟨_, hmem, rfl⟩
      have hl := lookup_eq_fn_of_mem binop_fn binop_entries binop_entries_fn _ hk
      rw [binop_rules_lookup, hl, binop_fn_binid, hexp]
  | none =>
      have hk : binid op.code s1 s2 ∉ binop_entries.map Prod.fst := by
        intro hk
        obtain ⟨e, he, hke⟩ := List.mem_map.1 hk
        have h1 := binop_entries_fn e he
        rw [hke, binop_fn_binid, hexp] at h1
        cases h1
      rw [binop_rules_lookup, lookup_eq_none_of_not_mem _ _ hk]

/-- C1 counterexample: the claim places INT_DIVIDE in the both-numeric
category, so it asserts the table maps INT_DIVIDE on (FLOAT64, FLOAT64)
to their maximum FLOAT64; in fact init_binops adds INT_DIVIDE only for
both-integer operand pairs, the entry is absent, and resolve raises
TypeError there. -/
theorem C1_counterexample :
    binop_rules_lookup (binid biop.INT_DIVIDE.code SType.FLOAT64 SType.FLOAT64) = none ∧
    resolve (.binaryop biop.INT_DIVIDE.code (litS SType.FLOAT64) (litS SType.FLOAT64)) wf_empty
      = .error (.TypeError (binop_err_msg biop.INT_DIVIDE.code SType.FLOAT64 SType.FLOAT64)) := by
  have h : binop_rules_lookup (binid biop.INT_DIVIDE.code SType.FLOAT64 SType.FLOAT64) = none :=
    (binop_char biop.INT_DIVIDE SType.FLOAT64 SType.FLOAT64).trans (by decide)
  exact ⟨h, by simp [resolve, litS, h]⟩

/-- C1 amended: the binary type-rule table maps PLUS, MINUS, MULTIPLY and
POWER to max(s1, s2) exactly on both-numeric operand pairs, and maps
INT_DIVIDE, MODULO, LEFT_SHIFT and RIGHT_SHIFT to max(s1, s2) exactly on
both-integer operand pairs (both-integer excludes BOOL); for operand
pairs outside the respective category the entry is absent and resolve
raises TypeError. -/
theorem C1_amended_binop_promotion :
    (∀ op ∈ [biop.PLUS, biop.MINUS, biop.MULTIPLY, biop.POWER], ∀ s1 s2 : SType,
        binop_rules_lookup (binid op.code s1 s2)
          = if s1 ∈ numeric_stypes ∧ s2 ∈ numeric_stypes
            then some (stmax s1 s2) else none) ∧
    (∀ op ∈ [biop.INT_DIVIDE, biop.MODULO, biop.LEFT_SHIFT, biop.RIGHT_SHIFT],
        ∀ s1 s2 : SType,
        binop_rules_lookup (binid op.code s1 s2)
          = if s1 ∈ integer_stypes ∧ s2 ∈ integer_stypes
            then some (stmax s1 s2) else none) ∧
    (∀ (code : Nat) (s1 s2 : SType) (wf : workframe),
        binop_rules_lookup (binid code s1 s2) = none →
        resolve (.binaryop code (litS s1) (litS s2)) wf
          = .error (.TypeError (binop_err_msg code s1 s2))) := by
  have h1 : ∀ op ∈ [biop.PLUS, biop.MINUS, biop.MULTIPLY, biop.POWER], ∀ s1 s2 : SType,
      binop_expected op s1 s2
        = if s1 ∈ numeric_stypes ∧ s2 ∈ numeric_stypes
          then some (stmax s1 s2) else none := by decide
  have h2 : ∀ op ∈ [biop.INT_DIVIDE, biop.MODULO, biop.LEFT_SHIFT, biop.RIGHT_SHIFT],
      ∀ s1 s2 : SType,
      binop_expected op s1 s2
        = if s1 ∈ integer_stypes ∧ s2 ∈ integer_stypes
          then some (stmax s1 s2) else none := by decide
  refine ⟨?_, ?_, ?_⟩
  · intro op hop s1 s2
    rw [binop_char]
    exact h1 op hop s1 s2
  · intro op hop s1 s2
    rw [binop_char]
    exact h2 op hop s1 s2
  · intro code s1 s2 wf h
    simp [resolve, litS, h]

/-- C1 amended witness: PLUS promotes INT8 and INT64 to INT64, and MODULO
on the numeric non-integer pair (FLOAT32, FLOAT32) has no entry, so
resolve raises TypeError there. -/
theorem C1_amended_witness :
    binop_rules_lookup (binid biop.PLUS.code SType.INT8 SType.INT64) = some SType.INT64 ∧
    resolve (.binaryop biop.MODULO.code (litS SType.FLOAT32) (litS SType.FLOAT32)) wf_empty
      = .error (.TypeError (binop_err_msg biop.MODULO.code SType.FLOAT32 SType.FLOAT32)) := by
  constructor
  · have h := C1_amended_binop_promotion.1 biop.PLUS (by decide) SType.INT8 SType.INT64
    rw [h]; decide
  · exact C1_amended_binop_promotion.2.2 biop.MODULO.code SType.FLOAT32 SType.FLOAT32
      wf_empty ((binop_char biop.MODULO SType.FLOAT32 SType.FLOAT32).trans (by decide))

/-- C3: for every pair of numeric operand storage types, resolving a
BinaryOp with operator DIVIDE returns FLOAT64, because init_binops maps
DIVIDE on every numeric pair to FLOAT64. -/
theorem C3_divide_always_float64 (s1 s2 : SType) (wf : workframe)
    (h1 : s1 ∈ numeric_stypes) (h2 : s2 ∈ numeric_stypes) :
    resolve (.binaryop biop.DIVIDE.code (litS s1) (litS s2)) wf
      = .ok (SType.FLOAT64, .binaryop biop.DIVIDE.code (litS s1) (litS s2)) := by
  have hexp : ∀ t1 t2 : SType, t1 ∈ numeric_stypes → t2 ∈ numeric_stypes →
      binop_expected biop.DIVIDE t1 t2 = some SType.FLOAT64 := by decide
  have hlook := (binop_char biop.DIVIDE s1 s2).trans (hexp s1 s2 h1 h2)
  simp [resolve, litS, hlook]

/-- C3 witness: DIVIDE on INT8 and INT8 resolves to FLOAT64. -/
theorem C3_witness :
    resolve (.binaryop biop.DIVIDE.code (litS SType.INT8) (litS SType.INT8)) wf_empty
      = .ok (SType.FLOAT64, .binaryop biop.DIVIDE.code (litS SType.INT8) (litS SType.INT8)) :=
  C3_divide_always_float64 SType.INT8 SType.INT8 wf_empty (by decide) (by decide)

/-- C6: for both-string operand pairs, including the mixed-width pair,
exactly the equality relations REL_EQ and REL_NE are in the table with
result BOOL, and every other binary operator has no entry there, making
resolve raise TypeError. -/
theorem C6_string_relations :
    (∀ (op : biop) (s1 s2 : SType), s1 ∈ string_types → s2 ∈ string_types →
        binop_rules_lookup (binid op.code s1 s2)
          = if op = biop.REL_EQ ∨ op = biop.REL_NE then some SType.BOOL else none) ∧
    (∀ (op : biop) (s1 s2 : SType) (wf : workframe),
        s1 ∈ string_types → s2 ∈ string_types →
        (op = biop.REL_EQ ∨ op = biop.REL_NE →
            resolve (.binaryop op.code (litS s1) (litS s2)) wf
              = .ok (SType.BOOL, .binaryop op.code (litS s1) (litS s2))) ∧
        (¬(op = biop.REL_EQ ∨ op = biop.REL_NE) →
            resolve (.binaryop op.code (litS s1) (litS s2)) wf
              = .error (.TypeError (binop_err_msg op.code s1 s2)))) := by
  have hexp : ∀ (op : biop) (s1 s2 : SType), s1 ∈ string_types → s2 ∈ string_types →
      binop_expected op s1 s2
        = if op = biop.REL_EQ ∨ op = biop.REL_NE then some SType.BOOL else none := by decide
  constructor
  · intro op s1 s2 hs1 hs2
    rw [binop_char]
    exact hexp op s1 s2 hs1 hs2
  · intro op s1 s2 wf hs1 hs2
    have hl := (binop_char op s1 s2).trans (hexp op s1 s2 hs1 hs2)
    constructor
    · intro hop
      rw [if_pos hop] at hl
      simp [resolve, litS, hl]
    · intro hop
      rw [if_neg hop] at hl
      simp [resolve, litS, hl]

/-- C6 witness: REL_EQ on the mixed-width pair (STR32, STR64) resolves to
BOOL, and PLUS on (STR32, STR32) raises TypeError. -/
theorem C6_witness :
    resolve (.binaryop biop.REL_EQ.code (litS SType.STR32) (litS SType.STR64)) wf_empty
      = .ok (SType.BOOL, .binaryop biop.REL_EQ.code (litS SType.STR32) (litS SType.STR64)) ∧
    resolve (.binaryop biop.PLUS.code (litS SType.STR32) (litS SType.STR32)) wf_empty
      = .error (.TypeError (binop_err_msg biop.PLUS.code SType.STR32 SType.STR32)) := by
  have ha := C6_string_relations.2 biop.REL_EQ SType.STR32 SType.STR64 wf_empty
    (by decide) (by decide)
  have hb := C6_string_relations.2 biop.PLUS SType.STR32 SType.STR32 wf_empty
    (by decide) (by decide)
  exact ⟨ha.1 (Or.inl rfl), hb.2 (by decide)⟩

/-- C7: the unary operators MINUS, PLUS and ABS are defined for every
numeric storage type, preserving it, except that on BOOL the overriding
writes of init_unops make the result INT8; in particular resolving
MINUS over a BOOL column gives INT8. -/
theorem C7_unary_minus_plus_abs :
    (∀ op ∈ [unop.MINUS, unop.PLUS, unop.ABS], ∀ st ∈ numeric_stypes,
        unop_rules_lookup (unid op.code st)
          = some (if st = SType.BOOL then SType.INT8 else st)) ∧
    (∀ wf : workframe,
        resolve (.unaryop unop.MINUS.code (litS SType.BOOL)) wf
          = .ok (SType.INT8, .unaryop unop.MINUS.code (litS SType.BOOL))) := by
  constructor
  · decide
  · have hl : unop_rules_lookup (unid unop.MINUS.code SType.BOOL) = some SType.INT8 := by
      decide
    intro wf
    simp [resolve, litS, hl]

/-- C7 witness: ABS on BOOL maps to INT8, MINUS on FLOAT32 preserves
FLOAT32, and resolving MINUS over a BOOL literal gives INT8. -/
theorem C7_witness :
    unop_rules_lookup (unid unop.ABS.code SType.BOOL) = some SType.INT8 ∧
    unop_rules_lookup (unid unop.MINUS.code SType.FLOAT32) = some SType.FLOAT32 ∧
    resolve (.unaryop unop.MINUS.code (litS SType.BOOL)) wf_empty
      = .ok (SType.INT8, .unaryop unop.MINUS.code (litS SType.BOOL)) := by
  refine ⟨?_, ?_, C7_unary_minus_plus_abs.2 wf_empty⟩
  · have h := C7_unary_minus_plus_abs.1 unop.ABS (by decide) SType.BOOL (by decide)
    rw [h]; decide
  · have h := C7_unary_minus_plus_abs.1 unop.MINUS (by decide) SType.FLOAT32 (by decide)
    rw [h]; decide

/-- C2: the nullary COUNT reduction resolves to INT64 regardless of
grouping; evaluated eagerly with an active grouping it produces one
INT32 value per group, each the difference of consecutive boundary
offsets, and without a grouping a single-row INT64 column holding the
total row count. -/
theorem C2_count_reduction (wf : workframe) (K : Kernels) :
    resolve (.reduce_nullary 0) wf = .ok (SType.INT64, .reduce_nullary 0) ∧
    (∀ g : Groupby, wf.groupby = some g →
        evaluate_eager K (.reduce_nullary 0) wf
          = some ⟨SType.INT32,
              (List.range g.ngroups).map
                (fun i => g.offsets.getD (i + 1) 0 - g.offsets.getD i 0),
              none⟩) ∧
    (wf.groupby = none →
        evaluate_eager K (.reduce_nullary 0) wf
          = some ⟨SType.INT64, [(wf.nrows : Int)], none⟩) := by
  refine ⟨rfl, ?_, ?_⟩
  · intro g hg
    simp [evaluate_eager, workframe.has_groupby, workframe.get_groupby, hg]
  · intro hn
    simp [evaluate_eager, workframe.has_groupby, hn]

/-- C2 witness: with boundary offsets 0, 3, 7, 10 COUNT evaluates to the
INT32 column 3, 4, 3; without grouping and 7 rows it evaluates to the
INT64 column holding 7; in both cases resolve returns INT64. -/
theorem C2_witness :
    resolve (.reduce_nullary 0) wf_grouped = .ok (SType.INT64, .reduce_nullary 0) ∧
    evaluate_eager trivialKernels (.reduce_nullary 0) wf_grouped
      = some ⟨SType.INT32, [3, 4, 3], none⟩ ∧
    evaluate_eager trivialKernels (.reduce_nullary 0) wf_rows7
      = some ⟨SType.INT64, [7], none⟩ := by
  refine ⟨(C2_count_reduction wf_grouped trivialKernels).1, ?_, ?_⟩
  · exact ((C2_count_reduction wf_grouped trivialKernels).2.1 ⟨[0, 3, 7, 10]⟩ rfl).trans
      (by decide)
  · exact ((C2_count_reduction wf_rows7 trivialKernels).2.2 rfl).trans (by decide)

/-- C4: the grouping-mode propagator marks a ColumnRef PerGroup exactly
when it references frame 0 under an active grouping and its column index
is one of the grouping key columns; Literal and NullaryReduce are always
PerGroup; BinaryOp combines its operands by the maximum under
GtoONE < GtoALL, so PerRow dominates; UnaryOp and Cast pass the operand
mode through unchanged. -/
theorem C4_groupby_mode_rules (wf : workframe) :
    (∀ (fid : Nat) (sel : Selector) (cid : Nat),
        get_groupby_mode (.column fid sel cid) wf
          = if fid = 0 ∧ wf.has_groupby = true ∧ wf.has_group_column cid = true
            then .GtoONE else .GtoALL) ∧
    (∀ c : ModelColumn, get_groupby_mode (.literal c) wf = .GtoONE) ∧
    (∀ op : Nat, get_groupby_mode (.reduce_nullary op) wf = .GtoONE) ∧
    (∀ (op : Nat) (l r : base_expr),
        get_groupby_mode (.binaryop op l r) wf
          = gmax (get_groupby_mode l wf) (get_groupby_mode r wf)) ∧
    (∀ a b : GroupbyMode, gmax a b = .GtoALL ↔ (a = .GtoALL ∨ b = .GtoALL)) ∧
    (∀ (op : Nat) (a : base_expr),
        get_groupby_mode (.unaryop op a) wf = get_groupby_mode a wf) ∧
    (∀ (a : base_expr) (st : SType),
        get_groupby_mode (.cast a st) wf = get_groupby_mode a wf) :=
  ⟨fun _ _ _ => rfl, fun _ => rfl, fun _ => rfl, fun _ _ _ => rfl,
   by decide, fun _ _ => rfl, fun _ _ => rfl⟩

/-- C4 witness: on a workframe grouping frame 0 by column 1, a resolved
reference to column 1 is PerGroup, one to column 0 is PerRow, a literal
is PerGroup, and a binary node over the two references is PerRow. -/
theorem C4_witness :
    get_groupby_mode (.column 0 (.int 1) 1) wf_gc = .GtoONE ∧
    get_groupby_mode (.column 0 (.int 0) 0) wf_gc = .GtoALL ∧
    get_groupby_mode (.literal ⟨SType.INT8, [], none⟩) wf_gc = .GtoONE ∧
    get_groupby_mode (.binaryop 1 (.column 0 (.int 1) 1) (.column 0 (.int 0) 0)) wf_gc
      = .GtoALL := by
  obtain ⟨hcol, hlit, -, hbin, hmax, -, -⟩ := C4_groupby_mode_rules wf_gc
  refine ⟨?_, ?_, hlit _, ?_⟩
  · rw [hcol]; decide
  · rw [hcol]; decide
  · rw [hbin, hcol 0 (.int 1) 1, hcol 0 (.int 0) 0]; decide

/-- C5: integer column selectors are validated against the bounds
derived from the column count, Python-style negative indexing resolves
below zero, an out-of-range index raises ValueError naming the index and
the column count, and an unknown frame id raises ValueError. -/
theorem C5_colref_bounds (wf : workframe) (fid : Nat) (i : Int) :
    (wf.nframes ≤ fid →
        get_col_index fid SENTINEL (.int i) wf
          = .error (.ValueError "Column expression references a non-existing join frame")) ∧
    (fid < wf.nframes →
        ((-((wf.get_datatable fid).ncols : Int) ≤ i
            ∧ i < ((wf.get_datatable fid).ncols : Int)) →
            get_col_index fid SENTINEL (.int i) wf
              = .ok ((if i < 0 then i + ((wf.get_datatable fid).ncols : Int) else i).toNat)) ∧
        ((i < -((wf.get_datatable fid).ncols : Int)
            ∨ ((wf.get_datatable fid).ncols : Int) ≤ i) →
            get_col_index fid SENTINEL (.int i) wf
              = .error (.ValueError
                  (invalid_index_msg i ((wf.get_datatable fid).ncols : Int))))) := by
  constructor
  · intro h
    unfold get_col_index
    rw [if_pos rfl, if_pos h]
  · intro hlt
    have hnot : ¬ (fid ≥ wf.nframes) := by omega
    constructor
    · intro hbounds
      have hcond : ¬ (i < -((wf.get_datatable fid).ncols : Int)
          ∨ i ≥ ((wf.get_datatable fid).ncols : Int)) := by omega
      unfold get_col_index
      rw [if_pos rfl, if_neg hnot]
      simp only [hcond, if_false]
      rcases lt_or_ge i 0 with hneg | hpos
      · rw [if_pos hneg, if_pos hneg]
      · have hnn : ¬ (i < 0) := by omega
        rw [if_neg hnn, if_neg hnn]
    · intro hbounds
      have hcond : i < -((wf.get_datatable fid).ncols : Int)
          ∨ i ≥ ((wf.get_datatable fid).ncols : Int) := by omega
      unfold get_col_index
      rw [if_pos rfl, if_neg hnot]
      simp only [hcond, if_true]

/-- C5 witness: on a 5-column frame selector -1 resolves to index 4,
selectors -6 and 5 raise ValueError naming the index and the count, and
an unknown frame id raises ValueError. -/
theorem C5_witness :
    get_col_index 0 SENTINEL (.int (-1)) wf5 = .ok 4 ∧
    get_col_index 0 SENTINEL (.int (-6)) wf5
      = .error (.ValueError (invalid_index_msg (-6) 5)) ∧
    get_col_index 0 SENTINEL (.int 5) wf5
      = .error (.ValueError (invalid_index_msg 5 5)) ∧
    get_col_index 3 SENTINEL (.int 0) wf5
      = .error (.ValueError "Column expression references a non-existing join frame") := by
  refine ⟨?_, ?_, ?_, ?_⟩
  · exact (((C5_colref_bounds wf5 0 (-1)).2 (by decide)).1 (by decide)).trans (by decide)
  · exact (((C5_colref_bounds wf5 0 (-6)).2 (by decide)).2 (by decide)).trans (by decide)
  · exact (((C5_colref_bounds wf5 0 5).2 (by decide)).2 (by decide)).trans (by decide)
  · exact (C5_colref_bounds wf5 3 0).1 (by decide)

/-- Helper for idempotence: once get_col_index has produced an index,
calling it again with that index cached returns the same index. -/
theorem get_col_index_idem (fid cid i : Nat) (sel : Selector) (wf : workframe)
    (h : get_col_index fid cid sel wf = .ok i) :
    get_col_index fid i sel wf = .ok i := by
  by_cases hc : cid = SENTINEL
  · subst hc
    by_cases hi : i = SENTINEL
    · subst hi
      exact h
    · unfold get_col_index
      rw [if_neg hi]
  · unfold get_col_index at h
    rw [if_neg hc] at h
    injection h with h2
    subst h2
    unfold get_col_index
    rw [if_neg hc]

/-- Helper for idempotence: a successful resolve leaves the node in a
state on which resolve returns the same storage type and the same node
again. -/
theorem resolve_idem (n : base_expr) (wf : workframe) :
    ∀ (st : SType) (n1 : base_expr), resolve n wf = .ok (st, n1) →
      resolve n1 wf = .ok (st, n1) := by
  induction n with
  | column fid sel cid =>
      intro st n1 h
      simp only [resolve] at h
      cases hg : get_col_index fid cid sel wf with
      | error e => simp [hg] at h
      | ok i =>
          simp [hg] at h
          obtain ⟨hst, hn⟩ := h
          subst hn
          subst hst
          simp [resolve, get_col_index_idem fid cid i sel wf hg]
  | literal c =>
      intro st n1 h
      simp only [resolve, Except.ok.injEq, Prod.mk.injEq] at h
      obtain ⟨hst, hn⟩ := h
      subst hn
      subst hst
      rfl
  | binaryop code lhs rhs ihl ihr =>
      intro st n1 h
      simp only [resolve] at h
      cases hl : resolve lhs wf with
      | error e => simp [hl] at h
      | ok p =>
          obtain ⟨st1, lhs2⟩ := p
          cases hr : resolve rhs wf with
          | error e => simp [hl, hr] at h
          | ok q =>
              obtain ⟨st2, rhs2⟩ := q
              cases hk : binop_rules_lookup (binid code st1 st2) with
              | none => simp [hl, hr, hk] at h
              | some st0 =>
                  simp [hl, hr, hk] at h
                  obtain ⟨hst, hn⟩ := h
                  subst hn
                  subst hst
                  have hl2 := ihl st1 lhs2 hl
                  have hr2 := ihr st2 rhs2 hr
                  simp [resolve, hl2, hr2, hk]
  | unaryop code arg iha =>
      intro st n1 h
      simp only [resolve] at h
      cases ha : resolve arg wf with
      | error e => simp [ha] at h
      | ok p =>
          obtain ⟨sta, arg2⟩ := p
          cases hk : unop_rules_lookup (unid code sta) with
          | none => simp [ha, hk] at h
          | some st0 =>
              simp [ha, hk] at h
              obtain ⟨hst, hn⟩ := h
              subst hn
              subst hst
              have ha2 := iha sta arg2 ha
              simp [resolve, ha2, hk]
  | cast arg stype iha =>
      intro st n1 h
      simp only [resolve] at h
      cases ha : resolve arg wf with
      | error e => simp [ha] at h
      | ok p =>
          obtain ⟨sta, arg2⟩ := p
          simp [ha] at h
          obtain ⟨hst, hn⟩ := h
          subst hn
          subst hst
          have ha2 := iha sta arg2 ha
          simp [resolve, ha2]
  | reduce_nullary op =>
      intro st n1 h
      simp only [resolve, Except.ok.injEq, Prod.mk.injEq] at h
      obtain ⟨hst, hn⟩ := h
      subst hn
      subst hst
      rfl

/-- C8: resolve is idempotent on every node kind: a second resolve of the
node produced by a successful first resolve yields the same storage type
and leaves the node unchanged, so the column-index cache is written at
most once and a subsequent evaluate_eager sees the same node and returns
the same output. -/
theorem C8_resolve_idempotent (n : base_expr) (wf : workframe) (K : Kernels)
    (st st2 : SType) (n1 n2 : base_expr)
    (h1 : resolve n wf = .ok (st, n1)) (h2 : resolve n1 wf = .ok (st2, n2)) :
    st2 = st ∧ n2 = n1 ∧ evaluate_eager K n2 wf = evaluate_eager K n1 wf := by
  have h := resolve_idem n wf st n1 h1
  rw [h] at h2
  injection h2 with h3
  injection h3 with h4 h5
  exact ⟨h4.symm, h5.symm, by rw [h5]⟩

/-- C8 witness: resolving a fresh column reference on a five-column frame
caches index 4, and the theorem applied to the two concrete resolve runs
confirms the second run returns the same stype, the same node, and the
same evaluate_eager output. -/
theorem C8_witness :
    SType.INT64 = SType.INT64 ∧
    base_expr.column 0 (.int (-1)) 4 = base_expr.column 0 (.int (-1)) 4 ∧
    evaluate_eager trivialKernels (.column 0 (.int (-1)) 4) wf5
      = evaluate_eager trivialKernels (.column 0 (.int (-1)) 4) wf5 :=
  C8_resolve_idempotent (.column 0 (.int (-1)) SENTINEL) wf5 trivialKernels
    SType.INT64 SType.INT64 (.column 0 (.int (-1)) 4) (.column 0 (.int (-1)) 4)
    (by decide) (by decide)

/-- Helper: to_base_expr rejects any value that is not a wrapped
expression object, naming the type it received. -/
theorem to_base_expr_not_expr (v : PyValue) (h : ∀ e, v ≠ .exprv e) :
    to_base_expr v
      = .error (.TypeError ("Expected a base_expr object, but got " ++ pytypename v)) := by
  cases v with
  | exprv e => exact absurd rfl (h e)
  | int i => rfl
  | str s => rfl
  | other => rfl

/-- C9: the factory raises TypeError reporting the expected and received
counts whenever the variadic argument count differs from the arity fixed
for the node kind, and raises TypeError when any subexpression position
of any node kind does not hold a well-formed expression object: both
BinaryOp operands, the UnaryOp operand, the Cast operand, the NaryReduce
operand and the StringFn operand. -/
theorem C9_factory_arity :
    (∀ (opcode : exprCode) (va : List PyValue), va.length ≠ expected_arity opcode →
        m__init__ opcode va
          = .error (.TypeError ("Expected " ++ toString (expected_arity opcode)
              ++ " additional arguments, but received " ++ toString va.length))) ∧
    (∀ (c : Nat) (v0 v1 v2 : PyValue), to_size_t v0 = .ok c → (∀ e, v1 ≠ .exprv e) →
        m__init__ .BINOP [v0, v1, v2]
          = .error (.TypeError ("Expected a base_expr object, but got "
              ++ pytypename v1))) ∧
    (∀ (c : Nat) (e1 : base_expr) (v0 v2 : PyValue),
        to_size_t v0 = .ok c → (∀ e, v2 ≠ .exprv e) →
        m__init__ .BINOP [v0, .exprv e1, v2]
          = .error (.TypeError ("Expected a base_expr object, but got "
              ++ pytypename v2))) ∧
    (∀ (c : Nat) (v0 v1 : PyValue), to_size_t v0 = .ok c → (∀ e, v1 ≠ .exprv e) →
        m__init__ .UNOP [v0, v1]
          = .error (.TypeError ("Expected a base_expr object, but got "
              ++ pytypename v1))) ∧
    (∀ (v0 v1 : PyValue), (∀ e, v0 ≠ .exprv e) →
        m__init__ .CAST [v0, v1]
          = .error (.TypeError ("Expected a base_expr object, but got "
              ++ pytypename v0))) ∧
    (∀ (c : Nat) (v0 v1 : PyValue), to_size_t v0 = .ok c → (∀ e, v1 ≠ .exprv e) →
        m__init__ .UNREDUCE [v0, v1]
          = .error (.TypeError ("Expected a base_expr object, but got "
              ++ pytypename v1))) ∧
    (∀ (c : Nat) (v0 v1 v2 : PyValue), to_size_t v0 = .ok c → (∀ e, v1 ≠ .exprv e) →
        m__init__ .STRINGFN [v0, v1, v2]
          = .error (.TypeError ("Expected a base_expr object, but got "
              ++ pytypename v1))) := by
  refine ⟨?_, ?_, ?_, ?_, ?_, ?_, ?_⟩
  · intro opcode va h
    cases opcode <;>
      simp_all [m__init__, check_args_count, expected_arity, Bind.bind, Except.bind]
  · intro c v0 v1 v2 hc hne
    simp [m__init__, check_args_count, Bind.bind, Except.bind, hc,
      to_base_expr_not_expr v1 hne]
  · intro c e1 v0 v2 hc hne
    simp [m__init__, check_args_count, Bind.bind, Except.bind, hc, to_base_expr,
      to_base_expr_not_expr v2 hne]
  · intro c v0 v1 hc hne
    simp [m__init__, check_args_count, Bind.bind, Except.bind, hc,
      to_base_expr_not_expr v1 hne]
  · intro v0 v1 hne
    simp [m__init__, check_args_count, Bind.bind, Except.bind,
      to_base_expr_not_expr v0 hne]
  · intro c v0 v1 hc hne
    simp [m__init__, check_args_count, Bind.bind, Except.bind, hc,
      to_base_expr_not_expr v1 hne]
  · intro c v0 v1 v2 hc hne
    simp [m__init__, check_args_count, Bind.bind, Except.bind, hc,
      to_base_expr_not_expr v1 hne]

/-- C9 witness: constructing a BinaryOp with 2 arguments instead of 3
raises TypeError reporting expected 3, received 2, and a non-expression
in each subexpression position (BinaryOp left and right, UnaryOp, Cast,
NaryReduce, StringFn) raises TypeError naming the received type. -/
theorem C9_witness :
    m__init__ .BINOP [.exprv (litS SType.INT8), .exprv (litS SType.INT8)]
      = .error (.TypeError "Expected 3 additional arguments, but received 2") ∧
    m__init__ .BINOP [.int 1, .int 2, .int 3]
      = .error (.TypeError "Expected a base_expr object, but got int") ∧
    m__init__ .BINOP [.int 1, .exprv (litS SType.INT8), .str "x"]
      = .error (.TypeError "Expected a base_expr object, but got str") ∧
    m__init__ .UNOP [.int 2, .int 7]
      = .error (.TypeError "Expected a base_expr object, but got int") ∧
    m__init__ .CAST [.str "y", .int 4]
      = .error (.TypeError "Expected a base_expr object, but got str") ∧
    m__init__ .UNREDUCE [.int 0, .other]
      = .error (.TypeError "Expected a base_expr object, but got object") ∧
    m__init__ .STRINGFN [.int 0, .int 1, .other]
      = .error (.TypeError "Expected a base_expr object, but got int") := by
  refine ⟨?_, ?_, ?_, ?_, ?_, ?_, ?_⟩
  · exact (C9_factory_arity.1 .BINOP [.exprv (litS SType.INT8), .exprv (litS SType.INT8)]
      (by decide)).trans (by decide)
  · exact (C9_factory_arity.2.1 1 (.int 1) (.int 2) (.int 3) (by decide)
      (fun e h => PyValue.noConfusion h)).trans (by decide)
  · exact (C9_factory_arity.2.2.1 1 (litS SType.INT8) (.int 1) (.str "x") (by decide)
      (fun e h => PyValue.noConfusion h)).trans (by decide)
  · exact (C9_factory_arity.2.2.2.1 2 (.int 2) (.int 7) (by decide)
      (fun e h => PyValue.noConfusion h)).trans (by decide)
  · exact (C9_factory_arity.2.2.2.2.1 (.str "y") (.int 4)
      (fun e h => PyValue.noConfusion h)).trans (by decide)
  · exact (C9_factory_arity.2.2.2.2.2.1 0 (.int 0) .other (by decide)
      (fun e h => PyValue.noConfusion h)).trans (by decide)
  · exact (C9_factory_arity.2.2.2.2.2.2 0 (.int 0) (.int 1) .other (by decide)
      (fun e h => PyValue.noConfusion h)).trans (by decide)

/-- C10: get_groupby_mode on a ColumnRef reads the raw column-index
cache, so while the cache still holds the sentinel the group-key
membership test is made against the sentinel and reports PerRow even for
a reference to a grouping key column of frame 0 under an active
grouping; only after resolve has cached the real index does it report
PerGroup. -/
theorem C10_mode_before_after_resolve (wf : workframe) (sel : Selector)
    (hs : wf.has_group_column SENTINEL = false) :
    get_groupby_mode (.column 0 sel SENTINEL) wf = .GtoALL ∧
    (∀ (st : SType) (i : Nat),
        resolve (.column 0 sel SENTINEL) wf = .ok (st, .column 0 sel i) →
        wf.has_groupby = true → wf.has_group_column i = true →
        get_groupby_mode (.column 0 sel i) wf = .GtoONE) := by
  constructor
  · simp [get_groupby_mode, hs]
  · intro st i _ hg hgc
    simp [get_groupby_mode, hg, hgc]

/-- C10 witness: on a workframe grouping frame 0 by column 1, a fresh
reference to column 1 reports PerRow, and after resolve caches index 1
it reports PerGroup. -/
theorem C10_witness :
    get_groupby_mode (.column 0 (.int 1) SENTINEL) wf_gc = .GtoALL ∧
    get_groupby_mode (.column 0 (.int 1) 1) wf_gc = .GtoONE := by
  obtain ⟨h1, h2⟩ := C10_mode_before_after_resolve wf_gc (.int 1) (by decide)
  exact ⟨h1, h2 SType.INT64 1 (by decide) (by decide) (by decide)⟩

end DT
